import Mathlib

/-!
Verification of the ticket-bot in `src/main.py` (a Discord ticket workflow).

The development shallowly embeds the handlers that the specification talks
about:

* `str_to_int_maybe` / `GenericValueModal_on_submit` — the settings editor
  (`GenericValueModal.on_submit`, `str_to_int_maybe` in the source);
* `TicketModal_on_submit` — the intake form validation and channel creation
  (`TicketModal.on_submit`);
* `take_button` — claiming an open ticket (`TicketInitialView.take_button`),
  together with a two-thread interleaving semantics (`runSched`) whose atomic
  steps are the maximal await-free segments of the handler;
* `accept_final`, `reject_ticket`, `delete_ticket`, `add_moderator`,
  `AddModeratorModal_on_submit` — the claimed-ticket actions
  (`TicketTakenView`).

Awaited platform calls are modelled as recorded effects that may raise,
according to an explicit failure environment (`FailEnv`); Python
`try/except Exception: pass` blocks are modelled by `tryPass`/`tryWith`.
-/

/- ---------------- Python string primitives ---------------- -/

/-- The code points Python treats as whitespace (`str.isspace`, the set
`str.strip()` removes): ASCII whitespace, the information separators
U+001C–U+001F, NEL, and the Unicode space characters. -/
def pySpaceCodes : List Nat :=
  [9, 10, 11, 12, 13, 28, 29, 30, 31, 32, 133, 160, 5760,
   8192, 8193, 8194, 8195, 8196, 8197, 8198, 8199, 8200, 8201, 8202,
   8232, 8233, 8239, 8287, 12288]

/-- The whitespace test of Python `str.strip()`. -/
def isPySpace (c : Char) : Bool :=
  pySpaceCodes.contains c.toNat

/-- Remove leading and trailing whitespace from a character list. -/
def stripChars (l : List Char) : List Char :=
  ((l.dropWhile isPySpace).reverse.dropWhile isPySpace).reverse

/-- Python `str.strip()`. -/
def pyStrip (s : String) : String := String.mk (stripChars s.data)

/-- The code-point ranges of the characters Python `str.isdigit()` accepts
(Unicode `Numeric_Type` Digit or Decimal): the decimal digits of every
script plus digit-valued characters such as superscripts (`²` is U+00B2 =
178) and circled digits. -/
def pyDigitRanges : List (Nat × Nat) :=
  [(48, 57), (178, 179), (185, 185), (1632, 1641), (1776, 1785),
   (1984, 1993), (2406, 2415), (2534, 2543), (2662, 2671), (2790, 2799),
   (2918, 2927), (3046, 3055), (3174, 3183), (3302, 3311), (3430, 3439),
   (3558, 3567), (3664, 3673), (3792, 3801), (3872, 3881), (4160, 4169),
   (4240, 4249), (4969, 4977), (6112, 6121), (6160, 6169), (6470, 6479),
   (6608, 6618), (6784, 6793), (6800, 6809), (6992, 7001), (7088, 7097),
   (7232, 7241), (7248, 7257), (8304, 8304), (8308, 8313), (8320, 8329),
   (9312, 9320), (9332, 9340), (9352, 9360), (9450, 9450), (9461, 9469),
   (9471, 9471), (10102, 10110), (10112, 10120), (10122, 10130),
   (42528, 42537), (43216, 43225), (43264, 43273), (43472, 43481),
   (43504, 43513), (43600, 43609), (44016, 44025), (65296, 65305),
   (66720, 66729), (68160, 68163), (68912, 68921), (69216, 69224),
   (69714, 69722), (69734, 69743), (69872, 69881), (69942, 69951),
   (70096, 70105), (70384, 70393), (70736, 70745), (70864, 70873),
   (71248, 71257), (71360, 71369), (71472, 71481), (71904, 71913),
   (72016, 72025), (72784, 72793), (73040, 73049), (73120, 73129),
   (92768, 92777), (92864, 92873), (93008, 93017), (120782, 120831),
   (123200, 123209), (123632, 123641), (125264, 125273), (127232, 127242),
   (130032, 130041)]

/-- A single character Python `str.isdigit()` accepts. -/
def isPyDigitChar (c : Char) : Bool :=
  pyDigitRanges.any (fun p => decide (p.1 ≤ c.toNat) && decide (c.toNat ≤ p.2))

/-- Python `str.isdigit()`: non-empty and all characters digits in the
Unicode sense above. -/
def pyIsdigit (s : String) : Bool :=
  !s.data.isEmpty && s.data.all isPyDigitChar

/-- Digit tail of a Python integer literal, after the first digit: digits with
single underscores allowed between digits (Python `int()` grammar). -/
def pyDigitsRest : List Char → Nat → Option Nat
  | [], acc => some acc
  | '_' :: c :: rest, acc =>
      if c.isDigit then pyDigitsRest rest (acc * 10 + (c.toNat - 48)) else none
  | ['_'], _ => none
  | c :: rest, acc =>
      if c.isDigit then pyDigitsRest rest (acc * 10 + (c.toNat - 48)) else none

/-- A non-empty run of digits (with optional single underscores between
digits), as accepted by Python `int()` after the optional sign. -/
def pyDigitPart : List Char → Option Nat
  | [] => none
  | c :: rest => if c.isDigit then pyDigitsRest rest (c.toNat - 48) else none

/-- `str_to_int_maybe` from the source: `int(s)` returning `None` on failure.
Python `int()` tolerates surrounding whitespace and an optional sign. -/
def str_to_int_maybe (s : String) : Option Int :=
  match stripChars s.data with
  | '+' :: rest => (pyDigitPart rest).map (fun n => (n : Int))
  | '-' :: rest => (pyDigitPart rest).map (fun n => -(n : Int))
  | l => (pyDigitPart l).map (fun n => (n : Int))

/-- A JSON scalar as stored in `settings.json`. -/
inductive JVal where
  | int (n : Int)
  | str (s : String)
  | null
deriving DecidableEq, Repr

/-- The settings dictionary: key to stored value (or absent). -/
def SettingsMap := String → Option JVal

/-- The in-memory `settings` dict together with the on-disk copy written by
`save_settings`. -/
structure SettingsState where
  mem : SettingsMap
  disk : SettingsMap

/-- Point update of the settings dictionary (`settings[key] = v`). -/
def setKey (m : SettingsMap) (k : String) (v : JVal) : SettingsMap :=
  fun k' => if k' = k then some v else m k'

/-- The defaults written by `load_settings` on first run. -/
def default_settings : SettingsMap := fun k =>
  if k = "ticket_message_text" then some (.str "Нажмите кнопку, чтобы открыть тикет:")
  else if k = "ticket_button_channel_id" then some .null
  else if k = "log_channel_id" then some .null
  else if k = "ticket_category_id" then some .null
  else if k = "staff_role_id" then some .null
  else if k = "accepted_role_id" then some .null
  else if k = "accept_message" then some (.str "Ваш тикет был принят!")
  else if k = "reject_message" then some (.str "Ваш тикет был отклонён.")
  else none

/-- A settings state with nothing stored (used to instantiate theorems). -/
def emptySettingsState : SettingsState := ⟨fun _ => none, fun _ => none⟩

/-- Python `key.endswith(suffix)` (over the characters of the strings). -/
def pyEndsWith (s suffix : String) : Bool :=
  suffix.data.isSuffixOf s.data

/-- Outcome of a settings edit. -/
inductive UpdateResult where
  | rejected (msg : String)
  | updated (key : String)
deriving DecidableEq, Repr

/-- `GenericValueModal.on_submit`: keys ending in `_id` are coerced with
`str_to_int_maybe`, rejected if unparseable; otherwise the raw string is
stored; on success `save_settings` persists the whole dict. -/
def GenericValueModal_on_submit (key newVal : String) (st : SettingsState) :
    UpdateResult × SettingsState :=
  if pyEndsWith key "_id" then
    match str_to_int_maybe newVal with
    | none => (.rejected "❌ Значение должно быть числом (ID).", st)
    | some n =>
        let mem' := setKey st.mem key (.int n)
        (.updated key, ⟨mem', mem'⟩)
  else
    let mem' := setKey st.mem key (.str newVal)
    (.updated key, ⟨mem', mem'⟩)

/-- The spec predicate of claim C4: an `_id` field is absent/null or a
positive integer. -/
def idFieldPositive (v : Option JVal) : Prop :=
  v = none ∨ v = some .null ∨ ∃ n : Int, 0 < n ∧ v = some (.int n)

/-- The amended predicate: an `_id` field is absent/null or an integer. -/
def idFieldIntOrNull (v : Option JVal) : Prop :=
  v = none ∨ v = some .null ∨ ∃ n : Int, v = some (.int n)

/- ---------------- Platform model ---------------- -/

/-- Target of a channel permission overwrite. -/
inductive PermTarget where
  | defaultRole
  | me
  | member (id : Int)
  | role (id : Int)
deriving DecidableEq, Repr

/-- Observable platform calls made by the handlers.  `ephemeral` is the
interaction response shown to the acting user; `audit` is a call to
`send_log_embed` (the notification sink is an external collaborator, so the
call itself is the emitted audit entry). -/
inductive Effect where
  | ephemeral (userId : Int) (msg : String)
  | setPerm (channelId : Int) (target : PermTarget)
      (sendMessages viewChannel readHistory : Bool)
  | editNick (memberId : Int) (nick : String)
  | addRole (memberId : Int) (roleId : Int)
  | dm (memberId : Int) (title desc : String)
  | audit (level title : String)
  | deleteChannel (channelId : Int)
  | channelMsg (channelId : Int) (msg : String)
  | showModal (userId : Int) (title : String)
  | editView (takerId : Int)
deriving DecidableEq, Repr

/-- The guild as the handlers query it: member ids, role ids, channel ids. -/
structure Guild where
  members : List Int
  roles : List Int
  channels : List Int

/-- The interacting user: id, `guild_permissions.administrator`, role ids. -/
structure Actor where
  id : Int
  isAdmin : Bool
  roleIds : List Int

/-- The settings values the ticket handlers read (results of
`settings.get(...)`; `None`/absent is `none`). -/
structure BotSettings where
  staff_role_id : Option Int
  ticket_category_id : Option Int
  accepted_role_id : Option Int
  accept_message : Option String
  reject_message : Option String

/-- Python truthiness of an optional integer (`if x:`). -/
def truthyInt : Option Int → Bool
  | none => false
  | some n => n != 0

/-- Which awaited platform calls raise, in the run under consideration. -/
structure FailEnv where
  nickFails : Bool
  addRoleFails : Bool
  dmFails : Bool
  deleteFails : Bool
  permRoleFails : Bool
  permTakerFails : Bool
  permOwnerFails : Bool
  modPermFails : Bool
  modMsgFails : Bool

/-- The all-succeed environment. -/
def envOk : FailEnv := ⟨false, false, false, false, false, false, false, false, false⟩

/-- Result of a straight-line handler fragment: the platform calls attempted,
and whether an uncaught exception is propagating at its end. -/
def ER := List Effect × Bool

/-- A non-raising interaction response / sink call. -/
def emitE (e : Effect) : ER := ([e], false)

/-- An awaited platform call: it is attempted and raises iff `fails`. -/
def callE (e : Effect) (fails : Bool) : ER := ([e], fails)

/-- A fragment that attempts nothing. -/
def skipE : ER := ([], false)

/-- Sequencing: if the first fragment raised, the second never runs. -/
def seqE (a b : ER) : ER :=
  if a.2 then a else (a.1 ++ b.1, b.2)

/-- Python `try: body except Exception: pass`. -/
def tryPass (a : ER) : ER := (a.1, false)

/-- The five raw free-text fields of the intake form. -/
structure IntakeInput where
  nick : String
  age : String
  purpose : String
  from_where : String
  read_rules : String

/-- The requester submitting the form. -/
structure Author where
  id : Int
  name : String

/-- `3 <= len(nick_val) <= 50`. -/
def nickOk (s : String) : Bool := 3 ≤ s.length && s.length ≤ 50

/-- `1 <= len(age_val) <= 2 and age_val.isdigit()`. -/
def ageOk (s : String) : Bool := (1 ≤ s.length && s.length ≤ 2) && pyIsdigit s

/-- `50 <= len(purpose_val) <= 500`. -/
def purposeOk (s : String) : Bool := 50 ≤ s.length && s.length ≤ 500

/-- `1 <= len(from_where_val) <= 50`. -/
def fromWhereOk (s : String) : Bool := 1 ≤ s.length && s.length ≤ 50

/-- `1 <= len(read_rules_val) <= 20`. -/
def readRulesOk (s : String) : Bool := 1 ≤ s.length && s.length ≤ 20

def msgNickLen : String := "❌ Ник должен быть от 3 до 50 символов."
def msgAgeFmt : String := "❌ Возраст должен быть числом из 1-2 цифр."
def msgPurposeLen : String := "❌ Поле «Чем будете заниматься?» должно содержать от 50 до 500 символов."
def msgFromLen : String := "❌ Поле «Откуда узнали» должно содержать от 1 до 50 символов."
def msgRulesLen : String := "❌ Поле «Прочитали ли правила?» должно содержать от 1 до 20 символов."

/-- The private channel created for an accepted intake. -/
structure CreatedChannel where
  name : String
  topic : String
  categoryId : Option Int
  overwrites : List (PermTarget × Bool)
deriving DecidableEq, Repr

/-- Outcome of an intake submission. -/
inductive IntakeResult where
  | rejected (msg : String)
  | created (c : CreatedChannel)
deriving DecidableEq, Repr

/-- `TicketModal.on_submit`: strip each field, validate in order with a
field-specific rejection, else create the private ticket channel (visible to
the requester, the bot, and the staff role when configured and resolvable)
whose topic records the owner id. -/
def TicketModal_on_submit (g : Guild) (sett : BotSettings) (author : Author)
    (inp : IntakeInput) : IntakeResult :=
  let nick_val := pyStrip inp.nick
  let age_val := pyStrip inp.age
  let purpose_val := pyStrip inp.purpose
  let from_where_val := pyStrip inp.from_where
  let read_rules_val := pyStrip inp.read_rules
  if !nickOk nick_val then .rejected msgNickLen
  else if !ageOk age_val then .rejected msgAgeFmt
  else if !purposeOk purpose_val then .rejected msgPurposeLen
  else if !fromWhereOk from_where_val then .rejected msgFromLen
  else if !readRulesOk read_rules_val then .rejected msgRulesLen
  else
    let staffOv : List (PermTarget × Bool) :=
      match sett.staff_role_id with
      | some rid => if rid != 0 && decide (rid ∈ g.roles) then [(.role rid, true)] else []
      | none => []
    let category : Option Int :=
      match sett.ticket_category_id with
      | some cid => if cid != 0 && decide (cid ∈ g.channels) then some cid else none
      | none => none
    .created
      { name := ("ticket-" ++ author.name).take 90
        topic := "ticket_owner:" ++ toString author.id
        categoryId := category
        overwrites :=
          [(.defaultRole, false), (.member author.id, true), (.me, true)] ++ staffOv }

/- ---------------- Claimed-ticket view (TicketTakenView) ---------------- -/

/-- The data a `TicketTakenView` holds that the claims depend on: the ticket
owner, the nickname submitted on intake, and the claimant (`taker_id`). -/
structure TakenSt where
  ownerId : Int
  nickText : String
  takerId : Int
deriving DecidableEq, Repr

/-- `TicketTakenView._is_taker_or_admin`. -/
def is_taker_or_admin (st : TakenSt) (a : Actor) : Bool :=
  a.id == st.takerId || a.isAdmin

def msgOnlyTakerAct : String := "⚠ Только модератор, взявший тикет, может это сделать."
def msgOnlyTakerReject : String := "⚠ Только модератор, взявший тикет, может отклонить."
def msgOnlyTakerDelete : String := "⚠ Только модератор, взявший тикет, может удалить канал."
def msgAcceptedAck : String := "✔ Тикет принят и пользователь уведомлён (если возможно)."
def msgDeleting : String := "Канал удаляется..."
/-- Body of the acceptance DM: the configured `accept_message` (when truthy)
followed by the fixed signature line. -/
def acceptDesc (m : Option String) : String :=
  let base := "-# С уважением команда Abyss"
  match m with
  | some t => if t != "" then t ++ "\n\n" ++ base else base
  | none => base

/-- `TicketTakenView.accept_final`: authorization gate, then best-effort
nickname edit, role grant (only when `accepted_role_id` is truthy and the
role resolves), DM; then the acknowledgement, the info audit entry and the
channel deletion.  Every awaited side effect sits in its own
`try/except: pass`. -/
def accept_final (env : FailEnv) (g : Guild) (sett : BotSettings)
    (chan : Option Int) (st : TakenSt) (actor : Actor) : TakenSt × ER :=
  if is_taker_or_admin st actor = false then
    (st, emitE (.ephemeral actor.id msgOnlyTakerAct))
  else
    let memberPart : ER :=
      if decide (st.ownerId ∈ g.members) then
        seqE (tryPass (callE (.editNick st.ownerId st.nickText) env.nickFails))
          (seqE
            (match sett.accepted_role_id with
             | some rid =>
                 if rid != 0 then
                   if decide (rid ∈ g.roles) then
                     tryPass (callE (.addRole st.ownerId rid) env.addRoleFails)
                   else skipE
                 else skipE
             | none => skipE)
            (tryPass (callE (.dm st.ownerId "Ваша заявка принята!"
              (acceptDesc sett.accept_message)) env.dmFails)))
      else skipE
    let logPart : ER :=
      tryPass (seqE (emitE (.audit "info" "Заявка принята"))
        (match chan with
         | some cid => tryPass (callE (.deleteChannel cid) env.deleteFails)
         | none => skipE))
    (st, seqE memberPart (seqE (emitE (.ephemeral actor.id msgAcceptedAck)) logPart))

/-- `TicketTakenView.reject_ticket`: authorization gate, then the reason
modal is shown (its submission is a separate handler). -/
def reject_ticket (st : TakenSt) (actor : Actor) : TakenSt × ER :=
  if is_taker_or_admin st actor = false then
    (st, emitE (.ephemeral actor.id msgOnlyTakerReject))
  else
    (st, emitE (.showModal actor.id "Причина отказа"))

/-- `TicketTakenView.delete_ticket`: authorization gate, acknowledgement,
then the channel deletion inside `try/except: pass`. -/
def delete_ticket (env : FailEnv) (chan : Option Int) (st : TakenSt)
    (actor : Actor) : TakenSt × ER :=
  if is_taker_or_admin st actor = false then
    (st, emitE (.ephemeral actor.id msgOnlyTakerDelete))
  else
    (st, seqE (emitE (.ephemeral actor.id msgDeleting))
      (match chan with
       | some cid => tryPass (callE (.deleteChannel cid) env.deleteFails)
       | none => tryPass skipE))

/-- `TicketTakenView.add_moderator`: authorization gate, then the
add-moderator modal is shown. -/
def add_moderator (st : TakenSt) (actor : Actor) : TakenSt × ER :=
  if is_taker_or_admin st actor = false then
    (st, emitE (.ephemeral actor.id msgOnlyTakerAct))
  else
    (st, emitE (.showModal actor.id "Добавить модератора в тикет"))

/-- The data a `TicketInitialView` holds that the claims depend on. -/
structure InitialSt where
  ownerId : Int
  nickText : String
  takenBy : Option Int
deriving DecidableEq, Repr

/-- Outcome of a claim attempt. -/
inductive TakeOutcome where
  | configError
  | noPermission
  | alreadyTaken
  | claimed
deriving DecidableEq, Repr

def msgNoStaffRole : String := "❌ Роль модераторов не настроена."
def msgNoRights : String := "❌ У вас нет прав принять тикет."
def msgAlreadyTaken : String := "⚠ Этот тикет уже занят."

/-- State shared between concurrent claim attempts: the view's `taken_by`
field and the global trace of platform calls. -/
structure Shared where
  takenBy : Option Int
  trace : List Effect

/-- The authorization computed by `take_button`: the staff role resolves and
the actor holds it, or the actor is an administrator. -/
def allowedActor (g : Guild) (rid : Int) (a : Actor) : Bool :=
  (decide (rid ∈ g.roles) && decide (rid ∈ a.roleIds)) || a.isAdmin

/-- The prefix of `take_button` up to its first awaited call on the success
path: staff-role configuration check, authorization check, `taken_by` check
and `taken_by` assignment.  The source performs all of these without an
intervening `await`, so this is a single atomic step. -/
def takeSync (g : Guild) (staffRoleId : Option Int) (actor : Actor)
    (sh : Shared) : TakeOutcome × Shared :=
  match staffRoleId with
  | none =>
      (.configError, { sh with trace := sh.trace ++ [.ephemeral actor.id msgNoStaffRole] })
  | some rid =>
      if allowedActor g rid actor = false then
        (.noPermission, { sh with trace := sh.trace ++ [.ephemeral actor.id msgNoRights] })
      else
        match sh.takenBy with
        | some _ =>
            (.alreadyTaken,
              { sh with trace := sh.trace ++ [.ephemeral actor.id msgAlreadyTaken] })
        | none => (.claimed, { takenBy := some actor.id, trace := sh.trace })

/-- The awaited tail of `take_button` after a successful claim: the three
permission updates (all inside one `try/except: pass`) and the message edit
installing the claimed-state view. -/
def takeRest (env : FailEnv) (g : Guild) (rid : Int) (actor : Actor)
    (ownerId chanId : Int) : List Effect :=
  let rolePart : ER :=
    if rid != 0 && decide (rid ∈ g.roles) then
      callE (.setPerm chanId (.role rid) false true true) env.permRoleFails
    else skipE
  let takerPart : ER :=
    callE (.setPerm chanId (.member actor.id) true true true) env.permTakerFails
  let ownerPart : ER :=
    if decide (ownerId ∈ g.members) then
      callE (.setPerm chanId (.member ownerId) true true true) env.permOwnerFails
    else skipE
  (tryPass (seqE rolePart (seqE takerPart ownerPart))).1 ++ [.editView actor.id]

/-- `TicketInitialView.take_button`, run without interference: the atomic
check-and-set, then (on success) the awaited tail. -/
def take_button (env : FailEnv) (g : Guild) (staffRoleId : Option Int)
    (chanId : Int) (st : InitialSt) (actor : Actor) :
    TakeOutcome × InitialSt × List Effect :=
  let r := takeSync g staffRoleId actor ⟨st.takenBy, []⟩
  match r.1, staffRoleId with
  | .claimed, some rid =>
      (.claimed, { st with takenBy := r.2.takenBy },
        r.2.trace ++ takeRest env g rid actor st.ownerId chanId)
  | _, _ => (r.1, st, r.2.trace)

/-- One concurrent claim attempt: its actor, its program counter (0 = about
to run the atomic check-and-set, 1 = claim committed with the awaited tail
pending, 2 = finished) and its outcome once decided. -/
structure Thread where
  actor : Actor
  pc : Nat
  outcome : Option TakeOutcome

/-- Run one atomic segment of a claim attempt against the shared state. -/
def stepThread (env : FailEnv) (g : Guild) (srid : Option Int)
    (ownerId chanId : Int) (t : Thread) (sh : Shared) : Thread × Shared :=
  match t.pc with
  | 0 =>
      let r := takeSync g srid t.actor sh
      match r.1 with
      | .claimed => ({ t with pc := 1, outcome := some .claimed }, r.2)
      | o => ({ t with pc := 2, outcome := some o }, r.2)
  | 1 =>
      ({ t with pc := 2 },
        { sh with trace := sh.trace ++ takeRest env g (srid.getD 0) t.actor ownerId chanId })
  | _ => (t, sh)

/-- Interleave two claim attempts under a schedule: `true` runs the next
atomic segment of the first attempt, `false` of the second. -/
def runSched (env : FailEnv) (g : Guild) (srid : Option Int)
    (ownerId chanId : Int) : List Bool → Thread → Thread → Shared →
    Thread × Thread × Shared
  | [], a, b, sh => (a, b, sh)
  | c :: rest, a, b, sh =>
      if c then
        let r := stepThread env g srid ownerId chanId a sh
        runSched env g srid ownerId chanId rest r.1 b r.2
      else
        let r := stepThread env g srid ownerId chanId b sh
        runSched env g srid ownerId chanId rest a r.1 r.2

/-- A claim attempt that has not yet run. -/
def pendingTh (t : Thread) : Prop := t.pc = 0 ∧ t.outcome = none

/-- A claim attempt that committed the claim. -/
def winnerTh (t : Thread) : Prop :=
  t.outcome = some .claimed ∧ (t.pc = 1 ∨ t.pc = 2)

/-- A claim attempt that observed "already claimed". -/
def loserTh (t : Thread) : Prop :=
  t.pc = 2 ∧ t.outcome = some .alreadyTaken

/-- Invariant of the two-attempt race: either nobody has claimed and both
attempts are still pending, or the claim is committed, exactly one attempt
holds it, and the other is pending or has observed "already claimed". -/
def raceInv (a b : Thread) (sh : Shared) : Prop :=
  (sh.takenBy = none ∧ pendingTh a ∧ pendingTh b) ∨
  ((∃ x, sh.takenBy = some x) ∧
    ((winnerTh a ∧ (pendingTh b ∨ loserTh b)) ∨
     (winnerTh b ∧ (pendingTh a ∨ loserTh a))))

/- ---------------- Concrete instances for witnesses ---------------- -/

/-- A staff member holding role 5. -/
def actStaff : Actor := ⟨10, false, [5]⟩

/-- An administrator. -/
def actAdmin : Actor := ⟨11, true, []⟩

/-- An actor with no role and no administrator bit. -/
def actNobody : Actor := ⟨77, false, []⟩

/-- A small guild: members 1, 10, 11 and 123456789012345678; role 5. -/
def g0 : Guild := ⟨[1, 10, 11, 123456789012345678], [5], [42]⟩

/-- Settings with a staff role and no accepted role. -/
def sett0 : BotSettings := ⟨some 5, none, none, some "Добро пожаловать", none⟩

/-- A 49-character purpose text. -/
def purpose49 : String := String.mk (List.replicate 49 'x')

/-- A 50-character purpose text. -/
def purpose50 : String := String.mk (List.replicate 50 'x')

/-- The intake author used to instantiate theorems. -/
def author0 : Author := ⟨123, "alice"⟩

/-- A valid intake submission. -/
def intakeGood : IntakeInput := ⟨"abc", "18", purpose50, "friend", "yes"⟩

/-- The same submission with a 49-character purpose. -/
def intakeShortPurpose : IntakeInput := ⟨"abc", "18", purpose49, "friend", "yes"⟩

/-- The same submission with a 2-character nickname. -/
def intakeBadNick : IntakeInput := ⟨"ab", "18", purpose50, "friend", "yes"⟩

/-- The same submission with the age given as two superscript-two
characters, which are not digits 0–9 but which Python `str.isdigit()`
accepts. -/
def intakeUnicodeAge : IntakeInput := ⟨"abc", "²²", purpose50, "friend", "yes"⟩

/-- A claimed ticket: owner 1, nickname "SteveNick", claimant 10. -/
def tkn0 : TakenSt := ⟨1, "SteveNick", 10⟩

/-- A claimed ticket whose owner (99) is not a member of `g0`. -/
def tkn99 : TakenSt := ⟨99, "SteveNick", 10⟩

/-- An open ticket. -/
def init0 : InitialSt := ⟨1, "nick", none⟩

/-- A ticket already claimed by user 10. -/
def initTaken : InitialSt := ⟨1, "nick", some 10⟩

/- ==================== Theorems ==================== -/

/-- Claim C5: for every settings key ending in `_id`, writing a string that
parses as an integer stores that integer in the dict and on disk (reading
the key back yields it), and writing a string that does not parse is
rejected with the validation message leaving both the dict and the
persisted settings unchanged. -/
theorem c5_id_roundtrip (key v : String) (st : SettingsState)
    (hk : pyEndsWith key "_id" = true) :
    (∀ n : Int, str_to_int_maybe v = some n →
      GenericValueModal_on_submit key v st =
        (.updated key, ⟨setKey st.mem key (.int n), setKey st.mem key (.int n)⟩) ∧
      (GenericValueModal_on_submit key v st).2.mem key = some (.int n) ∧
      (GenericValueModal_on_submit key v st).2.disk key = some (.int n)) ∧
    (str_to_int_maybe v = none →
      GenericValueModal_on_submit key v st =
        (.rejected "❌ Значение должно быть числом (ID).", st)) := by
  constructor
  · intro n hn
    refine ⟨?_, ?_, ?_⟩ <;> simp [GenericValueModal_on_submit, hk, hn, setKey]
  · intro hn
    simp [GenericValueModal_on_submit, hk, hn]

theorem c5_witness :
    (GenericValueModal_on_submit "staff_role_id" "123456789012345678"
        ⟨default_settings, default_settings⟩).2.mem "staff_role_id" =
      some (.int 123456789012345678) ∧
    (GenericValueModal_on_submit "staff_role_id" "123456789012345678"
        ⟨default_settings, default_settings⟩).2.disk "staff_role_id" =
      some (.int 123456789012345678) ∧
    GenericValueModal_on_submit "staff_role_id" "abc"
        ⟨default_settings, default_settings⟩ =
      (.rejected "❌ Значение должно быть числом (ID).",
        ⟨default_settings, default_settings⟩) :=
  ⟨((c5_id_roundtrip "staff_role_id" "123456789012345678" _ (by decide)).1
      123456789012345678 (by decide)).2.1,
   ((c5_id_roundtrip "staff_role_id" "123456789012345678" _ (by decide)).1
      123456789012345678 (by decide)).2.2,
   (c5_id_roundtrip "staff_role_id" "abc" _ (by decide)).2 (by decide)⟩

/-- Claim C4 fails as stated: the administrative update path accepts `"0"`
for `staff_role_id` (Python `int("0")` succeeds) and stores the non-positive
integer `0`, both in the dict and on disk. -/
theorem c4_counterexample :
    (GenericValueModal_on_submit "staff_role_id" "0"
        ⟨default_settings, default_settings⟩).1 = .updated "staff_role_id" ∧
    (GenericValueModal_on_submit "staff_role_id" "0"
        ⟨default_settings, default_settings⟩).2.mem "staff_role_id" =
      some (.int 0) ∧
    (GenericValueModal_on_submit "staff_role_id" "0"
        ⟨default_settings, default_settings⟩).2.disk "staff_role_id" =
      some (.int 0) ∧
    ¬ idFieldPositive (some (.int 0)) := by
  refine ⟨by decide, by decide, by decide, ?_⟩
  rintro (h | h | ⟨n, hn, he⟩)
  · exact Option.noConfusion h
  · simp at h
  · simp at he
    omega

/-- Claim C4 (amended): after every settings update, each field whose key
ends in `_id` is absent, null, or an integer — the update path never stores
a non-integer under such a key. -/
theorem c4_id_fields_integer (key v : String) (st : SettingsState)
    (h : ∀ k, pyEndsWith k "_id" = true →
        idFieldIntOrNull (st.mem k) ∧ idFieldIntOrNull (st.disk k)) :
    ∀ k, pyEndsWith k "_id" = true →
      idFieldIntOrNull ((GenericValueModal_on_submit key v st).2.mem k) ∧
      idFieldIntOrNull ((GenericValueModal_on_submit key v st).2.disk k) := by
  intro k hk
  have hint : ∀ n : Int, idFieldIntOrNull (some (.int n)) :=
    fun n => Or.inr (Or.inr ⟨n, rfl⟩)
  by_cases hkey : pyEndsWith key "_id" = true
  · cases hn : str_to_int_maybe v with
    | none => simpa [GenericValueModal_on_submit, hkey, hn] using h k hk
    | some n =>
        by_cases hkk : k = key
        · subst hkk
          refine ⟨?_, ?_⟩ <;>
            · simp [GenericValueModal_on_submit, hkey, hn, setKey]
              exact hint n
        · refine ⟨?_, ?_⟩ <;>
            · simp [GenericValueModal_on_submit, hkey, hn, setKey, hkk]
              exact (h k hk).1
  · have hkk : k ≠ key := by
      intro he
      rw [he] at hk
      exact hkey hk
    refine ⟨?_, ?_⟩ <;>
      · simp [GenericValueModal_on_submit, hkey, setKey, hkk]
        exact (h k hk).1

theorem c4_witness :
    idFieldIntOrNull ((GenericValueModal_on_submit "staff_role_id" "0"
        emptySettingsState).2.mem "staff_role_id") ∧
    idFieldIntOrNull ((GenericValueModal_on_submit "staff_role_id" "0"
        emptySettingsState).2.disk "staff_role_id") :=
  c4_id_fields_integer "staff_role_id" "0" emptySettingsState
    (fun _ _ => ⟨Or.inl rfl, Or.inl rfl⟩) "staff_role_id" (by decide)

set_option maxRecDepth 4096 in
/-- Claim C2 fails as stated: the age check in the code is Python
`str.isdigit()`, which also accepts Unicode digit characters.  The
submission with age `"²²"` — two characters, neither of them a digit 0–9,
so the age violates its documented numeric-only constraint — is accepted
and a ticket channel is created instead of being rejected. -/
theorem c2_counterexample :
    (pyStrip intakeUnicodeAge.age).length = 2 ∧
    (pyStrip intakeUnicodeAge.age).data.all Char.isDigit = false ∧
    TicketModal_on_submit g0 sett0 author0 intakeUnicodeAge =
      .created { name := "ticket-alice", topic := "ticket_owner:123",
                 categoryId := none,
                 overwrites := [(.defaultRole, false), (.member 123, true),
                                (.me, true), (.role 5, true)] } :=
  ⟨by decide, by decide, by decide⟩

/-- Claim C2 (amended): an intake submission whose (stripped) fields
violate any of the five constraints as the code checks them — the
documented length bounds, with the age digit test being Python
`str.isdigit()`, which accepts Unicode digit characters beyond 0–9 — is
rejected with the message of a violated field, and no ticket channel is
created. -/
theorem c2_invalid_field_rejected (g : Guild) (sett : BotSettings)
    (author : Author) (inp : IntakeInput)
    (h : ¬(nickOk (pyStrip inp.nick) = true ∧ ageOk (pyStrip inp.age) = true ∧
        purposeOk (pyStrip inp.purpose) = true ∧
        fromWhereOk (pyStrip inp.from_where) = true ∧
        readRulesOk (pyStrip inp.read_rules) = true)) :
    ∃ msg, TicketModal_on_submit g sett author inp = .rejected msg ∧
      ((msg = msgNickLen ∧ nickOk (pyStrip inp.nick) = false) ∨
       (msg = msgAgeFmt ∧ ageOk (pyStrip inp.age) = false) ∨
       (msg = msgPurposeLen ∧ purposeOk (pyStrip inp.purpose) = false) ∨
       (msg = msgFromLen ∧ fromWhereOk (pyStrip inp.from_where) = false) ∨
       (msg = msgRulesLen ∧ readRulesOk (pyStrip inp.read_rules) = false)) ∧
      ∀ c, TicketModal_on_submit g sett author inp ≠ .created c := by
  cases hn : nickOk (pyStrip inp.nick) with
  | false =>
      refine ⟨msgNickLen, ?_, Or.inl ⟨rfl, rfl⟩, ?_⟩ <;>
        simp [TicketModal_on_submit, hn]
  | true =>
  cases ha : ageOk (pyStrip inp.age) with
  | false =>
      refine ⟨msgAgeFmt, ?_, Or.inr (Or.inl ⟨rfl, rfl⟩), ?_⟩ <;>
        simp [TicketModal_on_submit, hn, ha]
  | true =>
  cases hp : purposeOk (pyStrip inp.purpose) with
  | false =>
      refine ⟨msgPurposeLen, ?_, Or.inr (Or.inr (Or.inl ⟨rfl, rfl⟩)), ?_⟩ <;>
        simp [TicketModal_on_submit, hn, ha, hp]
  | true =>
  cases hf : fromWhereOk (pyStrip inp.from_where) with
  | false =>
      refine ⟨msgFromLen, ?_, Or.inr (Or.inr (Or.inr (Or.inl ⟨rfl, rfl⟩))), ?_⟩ <;>
        simp [TicketModal_on_submit, hn, ha, hp, hf]
  | true =>
  cases hr : readRulesOk (pyStrip inp.read_rules) with
  | false =>
      refine ⟨msgRulesLen, ?_, Or.inr (Or.inr (Or.inr (Or.inr ⟨rfl, rfl⟩))), ?_⟩ <;>
        simp [TicketModal_on_submit, hn, ha, hp, hf, hr]
  | true => exact absurd ⟨hn, ha, hp, hf, hr⟩ h

theorem c2_witness :
    ∃ msg, TicketModal_on_submit g0 sett0 author0 intakeBadNick = .rejected msg ∧
      ((msg = msgNickLen ∧ nickOk (pyStrip intakeBadNick.nick) = false) ∨
       (msg = msgAgeFmt ∧ ageOk (pyStrip intakeBadNick.age) = false) ∨
       (msg = msgPurposeLen ∧ purposeOk (pyStrip intakeBadNick.purpose) = false) ∨
       (msg = msgFromLen ∧ fromWhereOk (pyStrip intakeBadNick.from_where) = false) ∨
       (msg = msgRulesLen ∧ readRulesOk (pyStrip intakeBadNick.read_rules) = false)) ∧
      ∀ c, TicketModal_on_submit g0 sett0 author0 intakeBadNick ≠ .created c :=
  c2_invalid_field_rejected g0 sett0 author0 intakeBadNick (by decide)

/-- Claim C9: with the other four fields valid, a purpose of exactly 49
characters is rejected (no channel), and a purpose of exactly 50 characters
is accepted with a channel whose topic encodes the owner identity. -/
theorem c9_purpose_boundary (g : Guild) (sett : BotSettings) (author : Author)
    (inp : IntakeInput)
    (hn : nickOk (pyStrip inp.nick) = true) (ha : ageOk (pyStrip inp.age) = true)
    (hf : fromWhereOk (pyStrip inp.from_where) = true)
    (hr : readRulesOk (pyStrip inp.read_rules) = true) :
    ((pyStrip inp.purpose).length = 49 →
        TicketModal_on_submit g sett author inp = .rejected msgPurposeLen) ∧
    ((pyStrip inp.purpose).length = 50 →
        ∃ c, TicketModal_on_submit g sett author inp = .created c ∧
          c.topic = "ticket_owner:" ++ toString author.id) := by
  constructor
  · intro h49
    have hp : purposeOk (pyStrip inp.purpose) = false := by
      simp [purposeOk, h49]
    simp [TicketModal_on_submit, hn, ha, hp]
  · intro h50
    have hp : purposeOk (pyStrip inp.purpose) = true := by
      simp [purposeOk, h50]
    simp only [TicketModal_on_submit, hn, ha, hp, hf, hr, Bool.not_true,
      Bool.false_eq_true, if_false]
    exact ⟨_, rfl, rfl⟩

theorem c9_witness :
    TicketModal_on_submit g0 sett0 author0 intakeShortPurpose =
      .rejected msgPurposeLen ∧
    ∃ c, TicketModal_on_submit g0 sett0 author0 intakeGood = .created c ∧
      c.topic = "ticket_owner:" ++ toString (123 : Int) :=
  ⟨(c9_purpose_boundary g0 sett0 author0 intakeShortPurpose (by decide)
      (by decide) (by decide) (by decide)).1 (by decide),
   (c9_purpose_boundary g0 sett0 author0 intakeGood (by decide)
      (by decide) (by decide) (by decide)).2 (by decide)⟩

/-- A call wrapped in `try/except: pass` is attempted and never propagates,
whatever the environment does. -/
theorem tryPass_callE (e : Effect) (f : Bool) : tryPass (callE e f) = ([e], false) := rfl

/-- Claim C3: on a claimed ticket, an actor who is neither the recorded
claimant nor an administrator has each of accept, reject, delete and
add-collaborator rejected with a message, with no other platform call and
the ticket state unchanged. -/
theorem c3_unauthorized_rejected (env : FailEnv) (g : Guild) (sett : BotSettings)
    (chan : Option Int) (st : TakenSt) (a : Actor)
    (h1 : a.id ≠ st.takerId) (h2 : a.isAdmin = false) :
    accept_final env g sett chan st a =
      (st, ([.ephemeral a.id msgOnlyTakerAct], false)) ∧
    reject_ticket st a = (st, ([.ephemeral a.id msgOnlyTakerReject], false)) ∧
    delete_ticket env chan st a =
      (st, ([.ephemeral a.id msgOnlyTakerDelete], false)) ∧
    add_moderator st a = (st, ([.ephemeral a.id msgOnlyTakerAct], false)) := by
  have hauth : is_taker_or_admin st a = false := by
    simp [is_taker_or_admin, h1, h2]
  refine ⟨?_, ?_, ?_, ?_⟩ <;>
    simp [accept_final, reject_ticket, delete_ticket, add_moderator, hauth, emitE]

theorem c3_witness :
    accept_final envOk g0 sett0 (some 42) tkn0 actNobody =
      (tkn0, ([.ephemeral actNobody.id msgOnlyTakerAct], false)) ∧
    reject_ticket tkn0 actNobody =
      (tkn0, ([.ephemeral actNobody.id msgOnlyTakerReject], false)) ∧
    delete_ticket envOk (some 42) tkn0 actNobody =
      (tkn0, ([.ephemeral actNobody.id msgOnlyTakerDelete], false)) ∧
    add_moderator tkn0 actNobody =
      (tkn0, ([.ephemeral actNobody.id msgOnlyTakerAct], false)) :=
  c3_unauthorized_rejected envOk g0 sett0 (some 42) tkn0 actNobody (by decide) rfl

/-- Claim C6: an accept by the claimant or an administrator with no
`accepted_role_id` configured skips the role grant but still attempts the
nickname change and the DM and still deletes the channel; moreover, for
every accept by an authorized actor, the result does not depend on which
side effects fail, and the success acknowledgement is always sent. -/
theorem c6_accept_no_accepted_role (env : FailEnv) (g : Guild)
    (sett : BotSettings) (cid : Int) (st : TakenSt) (a : Actor)
    (hauth : is_taker_or_admin st a = true)
    (hrole : sett.accepted_role_id = none) (hmem : st.ownerId ∈ g.members) :
    accept_final env g sett (some cid) st a =
      (st, ([.editNick st.ownerId st.nickText,
             .dm st.ownerId "Ваша заявка принята!" (acceptDesc sett.accept_message),
             .ephemeral a.id msgAcceptedAck,
             .audit "info" "Заявка принята",
             .deleteChannel cid], false)) ∧
    (∀ (env₁ env₂ : FailEnv) (sett' : BotSettings) (chan' : Option Int),
        accept_final env₁ g sett' chan' st a = accept_final env₂ g sett' chan' st a) ∧
    (∀ (env' : FailEnv) (sett' : BotSettings) (chan' : Option Int),
        Effect.ephemeral a.id msgAcceptedAck ∈
          (accept_final env' g sett' chan' st a).2.1) := by
  refine ⟨?_, ?_, ?_⟩
  · simp [accept_final, hauth, hrole, hmem, seqE, tryPass, callE, emitE, skipE]
  · intro env₁ env₂ sett' chan'
    simp only [accept_final, tryPass_callE]
  · intro env' sett' chan'
    rcases sett' with ⟨srid, scat, sacc, sam, srm⟩
    rcases chan' with _ | cid' <;> rcases sacc with _ | rid <;>
      by_cases hm : st.ownerId ∈ g.members <;>
      simp [accept_final, hauth, hm, seqE, tryPass, callE, emitE, skipE,
        apply_ite Prod.snd, apply_ite Prod.fst, ite_self]

theorem c6_witness :
    accept_final envOk g0 sett0 (some 42) tkn0 actStaff =
      (tkn0, ([.editNick tkn0.ownerId tkn0.nickText,
               .dm tkn0.ownerId "Ваша заявка принята!" (acceptDesc sett0.accept_message),
               .ephemeral actStaff.id msgAcceptedAck,
               .audit "info" "Заявка принята",
               .deleteChannel 42], false)) ∧
    (∀ (env₁ env₂ : FailEnv) (sett' : BotSettings) (chan' : Option Int),
        accept_final env₁ g0 sett' chan' tkn0 actStaff =
          accept_final env₂ g0 sett' chan' tkn0 actStaff) ∧
    (∀ (env' : FailEnv) (sett' : BotSettings) (chan' : Option Int),
        Effect.ephemeral actStaff.id msgAcceptedAck ∈
          (accept_final env' g0 sett' chan' tkn0 actStaff).2.1) :=
  c6_accept_no_accepted_role envOk g0 sett0 42 tkn0 actStaff (by decide) rfl (by decide)

/-- Claim C10: an accept by the claimant or an administrator whose ticket
owner no longer resolves as a guild member skips the nickname change, the
role grant and the DM, yet still sends the acknowledgement, emits the
info audit entry and deletes the channel. -/
theorem c10_owner_unresolvable (env : FailEnv) (g : Guild) (sett : BotSettings)
    (cid : Int) (st : TakenSt) (a : Actor)
    (hauth : is_taker_or_admin st a = true) (hmem : st.ownerId ∉ g.members) :
    accept_final env g sett (some cid) st a =
      (st, ([.ephemeral a.id msgAcceptedAck,
             .audit "info" "Заявка принята",
             .deleteChannel cid], false)) := by
  simp [accept_final, hauth, hmem, seqE, tryPass, callE, emitE, skipE]

theorem c10_witness :
    accept_final envOk g0 sett0 (some 42) tkn99 actStaff =
      (tkn99, ([.ephemeral actStaff.id msgAcceptedAck,
                .audit "info" "Заявка принята",
                .deleteChannel 42], false)) :=
  c10_owner_unresolvable envOk g0 sett0 42 tkn99 actStaff (by decide) (by decide)

/-- An authorized claim attempt on an unclaimed ticket commits the claim in
its atomic check-and-set step. -/
theorem takeSync_claims (g : Guild) (rid : Int) (a : Actor) (sh : Shared)
    (ha : allowedActor g rid a = true) (h : sh.takenBy = none) :
    takeSync g (some rid) a sh = (.claimed, ⟨some a.id, sh.trace⟩) := by
  rcases sh with ⟨tb, tr⟩
  obtain rfl : tb = none := h
  simp [takeSync, ha]

/-- An authorized claim attempt on a claimed ticket is rejected in its
atomic check-and-set step with the "already claimed" response. -/
theorem takeSync_already (g : Guild) (rid : Int) (a : Actor) (sh : Shared)
    (x : Int) (ha : allowedActor g rid a = true) (hx : sh.takenBy = some x) :
    takeSync g (some rid) a sh =
      (.alreadyTaken, ⟨some x, sh.trace ++ [.ephemeral a.id msgAlreadyTaken]⟩) := by
  rcases sh with ⟨tb, tr⟩
  obtain rfl : tb = some x := hx
  simp [takeSync, ha]

/-- An unauthorized claim attempt is rejected before the `taken_by` check. -/
theorem takeSync_noperm (g : Guild) (rid : Int) (a : Actor) (sh : Shared)
    (ha : allowedActor g rid a = false) :
    takeSync g (some rid) a sh =
      (.noPermission,
        { sh with trace := sh.trace ++ [.ephemeral a.id msgNoRights] }) := by
  simp [takeSync, ha]

/-- The race invariant is symmetric in the two attempts. -/
theorem raceInv_swap {a b : Thread} {sh : Shared} (h : raceInv a b sh) :
    raceInv b a sh := by
  rcases h with ⟨h1, h2, h3⟩ | ⟨hx, h | h⟩
  · exact Or.inl ⟨h1, h3, h2⟩
  · exact Or.inr ⟨hx, Or.inr h⟩
  · exact Or.inr ⟨hx, Or.inl h⟩

/-- Stepping a claim attempt does not change its actor. -/
theorem stepThread_actor (env : FailEnv) (g : Guild) (srid : Option Int)
    (ownerId chanId : Int) (t : Thread) (sh : Shared) :
    (stepThread env g srid ownerId chanId t sh).1.actor = t.actor := by
  rcases t with ⟨ac, pc, oc⟩
  cases pc with
  | zero =>
      simp only [stepThread]
      split <;> rfl
  | succ n =>
      cases n with
      | zero => rfl
      | succ m => rfl

/-- One atomic step of the first attempt preserves the race invariant. -/
theorem stepThread_pres_left (env : FailEnv) (g : Guild) (rid : Int)
    (ownerId chanId : Int) (a b : Thread) (sh : Shared)
    (ha : allowedActor g rid a.actor = true)
    (hinv : raceInv a b sh) :
    raceInv (stepThread env g (some rid) ownerId chanId a sh).1 b
      (stepThread env g (some rid) ownerId chanId a sh).2 := by
  rcases a with ⟨ac, pc, oc⟩
  rcases hinv with ⟨h1, ⟨hpc, hoc⟩, hb⟩ | ⟨⟨x, hx⟩, hcase⟩
  · obtain rfl : pc = 0 := hpc
    obtain rfl : oc = none := hoc
    have ht := takeSync_claims g rid ac sh ha h1
    simp only [stepThread, ht]
    exact Or.inr ⟨⟨ac.id, rfl⟩, Or.inl ⟨⟨rfl, Or.inl rfl⟩, Or.inl hb⟩⟩
  · rcases hcase with ⟨⟨hoc, hpc1 | hpc2⟩, hother⟩ | ⟨hwin, hother⟩
    · obtain rfl : pc = 1 := hpc1
      simp only [stepThread]
      exact Or.inr ⟨⟨x, hx⟩, Or.inl ⟨⟨hoc, Or.inr rfl⟩, hother⟩⟩
    · obtain rfl : pc = 2 := hpc2
      simp only [stepThread]
      exact Or.inr ⟨⟨x, hx⟩, Or.inl ⟨⟨hoc, Or.inr rfl⟩, hother⟩⟩
    · rcases hother with ⟨hpc, hoc⟩ | ⟨hpc, hoc⟩
      · obtain rfl : pc = 0 := hpc
        have ht := takeSync_already g rid ac sh x ha hx
        simp only [stepThread, ht]
        exact Or.inr ⟨⟨x, rfl⟩, Or.inr ⟨hwin, Or.inr ⟨rfl, rfl⟩⟩⟩
      · obtain rfl : pc = 2 := hpc
        simp only [stepThread]
        exact Or.inr ⟨⟨x, hx⟩, Or.inr ⟨hwin, Or.inr ⟨rfl, hoc⟩⟩⟩

/-- Every interleaving of two authorized claim attempts preserves the race
invariant. -/
theorem runSched_pres (env : FailEnv) (g : Guild) (rid : Int)
    (ownerId chanId : Int) (sched : List Bool) :
    ∀ (a b : Thread) (sh : Shared),
      allowedActor g rid a.actor = true → allowedActor g rid b.actor = true →
      raceInv a b sh →
      raceInv (runSched env g (some rid) ownerId chanId sched a b sh).1
        (runSched env g (some rid) ownerId chanId sched a b sh).2.1
        (runSched env g (some rid) ownerId chanId sched a b sh).2.2 := by
  induction sched with
  | nil => intro a b sh _ _ h; simpa [runSched] using h
  | cons c rest ih =>
      intro a b sh ha hb hinv
      cases c
      · simp only [runSched, Bool.false_eq_true, if_false]
        apply ih
        · exact ha
        · rw [stepThread_actor]; exact hb
        · exact raceInv_swap
            (stepThread_pres_left env g rid ownerId chanId b a sh hb (raceInv_swap hinv))
      · simp only [runSched, if_true]
        apply ih
        · rw [stepThread_actor]; exact ha
        · exact hb
        · exact stepThread_pres_left env g rid ownerId chanId a b sh ha hinv

/-- Claim C1: a ticket is claimed at most once.  An authorized claim attempt
on a ticket whose claimant is set is rejected with the "already claimed"
response, changing neither the claimant nor any channel permission; and
since the handler performs the claimant check and assignment in one atomic
(await-free) step, every interleaving of two authorized claim attempts ends
with exactly one of them claiming and the other observing "already
claimed". -/
theorem c1_claim_at_most_once :
    (∀ (env : FailEnv) (g : Guild) (rid : Int) (chanId : Int) (st : InitialSt)
        (a : Actor) (x : Int), allowedActor g rid a = true → st.takenBy = some x →
        take_button env g (some rid) chanId st a =
          (.alreadyTaken, st, [.ephemeral a.id msgAlreadyTaken])) ∧
    (∀ (env : FailEnv) (g : Guild) (rid ownerId chanId : Int) (a b : Actor)
        (sched : List Bool),
        allowedActor g rid a = true → allowedActor g rid b = true →
        (runSched env g (some rid) ownerId chanId sched ⟨a, 0, none⟩ ⟨b, 0, none⟩
            ⟨none, []⟩).1.pc = 2 →
        (runSched env g (some rid) ownerId chanId sched ⟨a, 0, none⟩ ⟨b, 0, none⟩
            ⟨none, []⟩).2.1.pc = 2 →
        ((runSched env g (some rid) ownerId chanId sched ⟨a, 0, none⟩ ⟨b, 0, none⟩
              ⟨none, []⟩).1.outcome = some .claimed ∧
         (runSched env g (some rid) ownerId chanId sched ⟨a, 0, none⟩ ⟨b, 0, none⟩
              ⟨none, []⟩).2.1.outcome = some .alreadyTaken) ∨
        ((runSched env g (some rid) ownerId chanId sched ⟨a, 0, none⟩ ⟨b, 0, none⟩
              ⟨none, []⟩).1.outcome = some .alreadyTaken ∧
         (runSched env g (some rid) ownerId chanId sched ⟨a, 0, none⟩ ⟨b, 0, none⟩
              ⟨none, []⟩).2.1.outcome = some .claimed)) := by
  constructor
  · intro env g rid chanId st a x ha hx
    have ht := takeSync_already g rid a ⟨st.takenBy, []⟩ x ha hx
    simp [take_button, ht]
  · intro env g rid ownerId chanId a b sched ha hb h2a h2b
    have hinv := runSched_pres env g rid ownerId chanId sched ⟨a, 0, none⟩
      ⟨b, 0, none⟩ ⟨none, []⟩ ha hb (Or.inl ⟨rfl, ⟨rfl, rfl⟩, ⟨rfl, rfl⟩⟩)
    rcases hinv with ⟨_, ⟨hp, _⟩, _⟩ | ⟨_, ⟨⟨ho, _⟩, hother⟩ | ⟨⟨ho, _⟩, hother⟩⟩
    · rw [h2a] at hp
      exact absurd hp (by decide)
    · rcases hother with ⟨hp, _⟩ | ⟨_, ho2⟩
      · rw [h2b] at hp
        exact absurd hp (by decide)
      · exact Or.inl ⟨ho, ho2⟩
    · rcases hother with ⟨hp, _⟩ | ⟨_, ho2⟩
      · rw [h2a] at hp
        exact absurd hp (by decide)
      · exact Or.inr ⟨ho2, ho⟩

theorem c1_witness :
    take_button envOk g0 (some 5) 100 initTaken actAdmin =
      (.alreadyTaken, initTaken, [.ephemeral actAdmin.id msgAlreadyTaken]) ∧
    ((runSched envOk g0 (some 5) 1 100 [true, false, false, true]
        ⟨actStaff, 0, none⟩ ⟨actAdmin, 0, none⟩ ⟨none, []⟩).1.pc = 2 →
     (runSched envOk g0 (some 5) 1 100 [true, false, false, true]
        ⟨actStaff, 0, none⟩ ⟨actAdmin, 0, none⟩ ⟨none, []⟩).2.1.pc = 2 →
     ((runSched envOk g0 (some 5) 1 100 [true, false, false, true]
          ⟨actStaff, 0, none⟩ ⟨actAdmin, 0, none⟩ ⟨none, []⟩).1.outcome =
            some .claimed ∧
      (runSched envOk g0 (some 5) 1 100 [true, false, false, true]
          ⟨actStaff, 0, none⟩ ⟨actAdmin, 0, none⟩ ⟨none, []⟩).2.1.outcome =
            some .alreadyTaken) ∨
     ((runSched envOk g0 (some 5) 1 100 [true, false, false, true]
          ⟨actStaff, 0, none⟩ ⟨actAdmin, 0, none⟩ ⟨none, []⟩).1.outcome =
            some .alreadyTaken ∧
      (runSched envOk g0 (some 5) 1 100 [true, false, false, true]
          ⟨actStaff, 0, none⟩ ⟨actAdmin, 0, none⟩ ⟨none, []⟩).2.1.outcome =
            some .claimed)) :=
  ⟨c1_claim_at_most_once.1 envOk g0 5 100 initTaken actAdmin 10 (by decide) rfl,
   c1_claim_at_most_once.2 envOk g0 5 1 100 actStaff actAdmin
     [true, false, false, true] (by decide) (by decide)⟩

/-- Claim C7: a claim attempt on an open ticket with no staff role
configured is rejected with the configuration-error message and no state
change; with a staff role configured, the attempt claims the ticket exactly
when the actor holds the resolvable staff role or is an administrator, and
is otherwise rejected with no state change. -/
theorem c7_claim_authorization (env : FailEnv) (g : Guild) (chanId : Int)
    (st : InitialSt) (a : Actor) (hopen : st.takenBy = none) :
    take_button env g none chanId st a =
      (.configError, st, [.ephemeral a.id msgNoStaffRole]) ∧
    ∀ rid : Int,
      (((take_button env g (some rid) chanId st a).1 = .claimed ∧
        (take_button env g (some rid) chanId st a).2.1.takenBy = some a.id) ↔
        allowedActor g rid a = true) ∧
      (allowedActor g rid a = false →
        take_button env g (some rid) chanId st a =
          (.noPermission, st, [.ephemeral a.id msgNoRights])) := by
  constructor
  · simp [take_button, takeSync]
  · intro rid
    constructor
    · constructor
      · rintro ⟨h1, _⟩
        cases hA : allowedActor g rid a with
        | false =>
            have ht := takeSync_noperm g rid a ⟨st.takenBy, []⟩ hA
            simp [take_button, ht] at h1
        | true => rfl
      · intro ha
        have ht := takeSync_claims g rid a ⟨st.takenBy, []⟩ ha hopen
        simp [take_button, ht]
    · intro hna
      have ht := takeSync_noperm g rid a ⟨st.takenBy, []⟩ hna
      simp [take_button, ht]

theorem c7_witness :
    take_button envOk g0 none 100 init0 actStaff =
      (.configError, init0, [.ephemeral actStaff.id msgNoStaffRole]) ∧
    ∀ rid : Int,
      (((take_button envOk g0 (some rid) 100 init0 actStaff).1 = .claimed ∧
        (take_button envOk g0 (some rid) 100 init0 actStaff).2.1.takenBy =
          some actStaff.id) ↔
        allowedActor g0 rid actStaff = true) ∧
      (allowedActor g0 rid actStaff = false →
        take_button envOk g0 (some rid) 100 init0 actStaff =
          (.noPermission, init0, [.ephemeral actStaff.id msgNoRights])) :=
  c7_claim_authorization envOk g0 100 init0 actStaff rfl
